import Mathlib

/-!
# Verification of the dpdp-audit compliance pipeline core

Shallow embedding, in Lean 4, of the parts of the `dpdp-audit` repository
that the checked claims are about:

* `app/services/agents/orchestrator.py` — `AgentOrchestrator`
  (`evaluate_policy`, `_aggregate_verdict`, plan filtering,
  per-requirement failure isolation);
* `app/services/agents/core_agents.py` — `ReasonerAgent.assess`,
  `VerifierAgent.verify` (their fail-safe branches, and the pass-through of
  the oracle's parsed reply);
* `app/schemas/agents.py` — `RequirementAssessment`, `VerifiedAssessment`,
  `EvidenceBundle`;
* `app/services/audit_snapshotter.py` — `AuditSnapshotter`
  (`calculate_hash`, `create_frozen_snapshot`, `verify_integrity`,
  `ensure_immutability`);
* `app/api/v1/endpoints/upload.py` — `process_policy_task` status lifecycle;
* `app/models/audit.py` — `AuditStatus`, `PolicyAudit`.

Modelling conventions:

* The external LLM calls (`self.client.chat.completions.create` followed by
  `json.loads` and pydantic construction) are non-deterministic, fallible
  collaborators.  Each is modelled as an explicit *oracle* argument:
  `Option`/`Except` values standing for "the call raised" versus "the call
  returned this parsed object".  Everything downstream of the oracle reply is
  translated from the Python source.
* Python `str` is `String`, Python `float` is `ℚ` (the pipeline only stores,
  compares and serializes confidences — it never does float arithmetic — and
  every concrete confidence in the source and in these proofs is a short
  decimal, on which exact rational semantics and Python float semantics
  agree).  Python `None`-able fields are `Option`.
* `hashlib.sha256(...).hexdigest()` is embedded as a full executable SHA-256
  (FIPS 180-4) over the UTF-8 bytes, producing the lowercase hex digest.
* `json.dumps(obj, sort_keys=True)` is embedded as `Json.dumps`: Python's
  default separators (", " and ": "), `ensure_ascii` escaping, keys sorted
  lexicographically by code point at serialization time.
-/

set_option maxRecDepth 100000

namespace DPDPAudit

/-! ## SHA-256 (embedding of `hashlib.sha256(text.encode("utf-8")).hexdigest()`)

A direct FIPS 180-4 implementation on `Nat`, with 32-bit words represented as
naturals reduced `% 2^32`.  All recursion is structural so that concrete
digests evaluate inside the kernel. -/

/-- `2^32`, the word modulus. -/
def M32 : Nat := 4294967296

/-- Right-rotation of a 32-bit word by `n`. -/
def rotr (n x : Nat) : Nat := (x / 2 ^ n) + (x % 2 ^ n) * 2 ^ (32 - n)

/-- Logical right shift of a 32-bit word by `n`. -/
def shr (n x : Nat) : Nat := x / 2 ^ n

/-- Bitwise complement of a 32-bit word. -/
def not32 (x : Nat) : Nat := 4294967295 - x

/-- SHA-256 big Σ₀. -/
def bigSigma0 (x : Nat) : Nat := (rotr 2 x) ^^^ (rotr 13 x) ^^^ (rotr 22 x)

/-- SHA-256 big Σ₁. -/
def bigSigma1 (x : Nat) : Nat := (rotr 6 x) ^^^ (rotr 11 x) ^^^ (rotr 25 x)

/-- SHA-256 small σ₀. -/
def smallSigma0 (x : Nat) : Nat := (rotr 7 x) ^^^ (rotr 18 x) ^^^ (shr 3 x)

/-- SHA-256 small σ₁. -/
def smallSigma1 (x : Nat) : Nat := (rotr 17 x) ^^^ (rotr 19 x) ^^^ (shr 10 x)

/-- SHA-256 choice function. -/
def ch (e f g : Nat) : Nat := (e &&& f) ^^^ ((not32 e) &&& g)

/-- SHA-256 majority function. -/
def maj (a b c : Nat) : Nat := (a &&& b) ^^^ (a &&& c) ^^^ (b &&& c)

/-- The 64 SHA-256 round constants `K₀…K₆₃` of FIPS 180-4 (the fractional
parts of the cube roots of the first 64 primes), in decimal. -/
def shaK : List Nat := [
  1116352408, 1899447441, 3049323471, 3921009573, 961987163, 1508970993,
  2453635748, 2870763221, 3624381080, 310598401, 607225278, 1426881987,
  1925078388, 2162078206, 2614888103, 3248222580, 3835390401, 4022224774,
  264347078, 604807628, 770255983, 1249150122, 1555081692, 1996064986,
  2554220882, 2821834349, 2952996808, 3210313671, 3336571891, 3584528711,
  113926993, 338241895, 666307205, 773529912, 1294757372, 1396182291,
  1695183700, 1986661051, 2177026350, 2456956037, 2730485921, 2820302411,
  3259730800, 3345764771, 3516065817, 3600352804, 4094571909, 275423344,
  430227734, 506948616, 659060556, 883997877, 958139571, 1322822218,
  1537002063, 1747873779, 1955562222, 2024104815, 2227730452, 2361852424,
  2428436474, 2756734187, 3204031479, 3329325298]

/-- The eight 32-bit working variables of the compression function. -/
structure ShaState where
  a : Nat
  b : Nat
  c : Nat
  d : Nat
  e : Nat
  f : Nat
  g : Nat
  h : Nat
  deriving DecidableEq, Repr

/-- The SHA-256 initial hash value `H₀…H₇` of FIPS 180-4, in decimal. -/
def shaH0 : ShaState :=
  ⟨1779033703, 3144134277, 1013904242, 2773480762,
   1359893119, 2600822924, 528734635, 1541459225⟩

/-- One SHA-256 round; `kw` is the already-added `K[t] + W[t]`. -/
def shaRound (s : ShaState) (kw : Nat) : ShaState :=
  let t1 := (s.h + bigSigma1 s.e + ch s.e s.f s.g + kw) % M32
  let t2 := (bigSigma0 s.a + maj s.a s.b s.c) % M32
  ⟨(t1 + t2) % M32, s.a, s.b, s.c, (s.d + t1) % M32, s.e, s.f, s.g⟩

/-- Run the 64 rounds over the per-round values `K[t] + W[t]`. -/
def shaRounds : ShaState → List Nat → ShaState
  | s, [] => s
  | s, kw :: rest => shaRounds (shaRound s kw) rest

/-- Message-schedule extension.  `rws` is the schedule built so far, most
recent word first; `n` counts the words still to add. -/
def extendSchedule : List Nat → Nat → List Nat
  | rws, 0 => rws.reverse
  | rws, n + 1 =>
    let w := (smallSigma1 (rws.getD 1 0) + rws.getD 6 0 + smallSigma0 (rws.getD 14 0)
               + rws.getD 15 0) % M32
    extendSchedule (w :: rws) n

/-- Wordwise modular addition of two states. -/
def addState (x y : ShaState) : ShaState :=
  ⟨(x.a + y.a) % M32, (x.b + y.b) % M32, (x.c + y.c) % M32, (x.d + y.d) % M32,
   (x.e + y.e) % M32, (x.f + y.f) % M32, (x.g + y.g) % M32, (x.h + y.h) % M32⟩

/-- Pairwise `(K[t] + W[t]) % 2^32`. -/
def addLists : List Nat → List Nat → List Nat
  | k :: ks, w :: ws => (k + w) % M32 :: addLists ks ws
  | _, _ => []

/-- Compress one 16-word block into the running state. -/
def shaCompress (s : ShaState) (block : List Nat) : ShaState :=
  let W := extendSchedule block.reverse 48
  addState s (shaRounds s (addLists shaK W))

/-- Big-endian grouping of bytes into 32-bit words (input length is a
multiple of 4 after padding). -/
def bytesToWords : List Nat → List Nat
  | b0 :: b1 :: b2 :: b3 :: rest =>
      (((b0 * 256 + b1) * 256 + b2) * 256 + b3) :: bytesToWords rest
  | _ => []

/-- Consume the padded message sixteen words at a time. -/
def shaCompressAll (s : ShaState) : List Nat → ShaState
  | w0 :: w1 :: w2 :: w3 :: w4 :: w5 :: w6 :: w7 ::
    w8 :: w9 :: w10 :: w11 :: w12 :: w13 :: w14 :: w15 :: rest =>
      shaCompressAll
        (shaCompress s [w0, w1, w2, w3, w4, w5, w6, w7, w8, w9, w10, w11, w12, w13, w14, w15])
        rest
  | _ => s

/-- The message bit-length as 8 big-endian bytes. -/
def lenTo8Bytes (n : Nat) : List Nat :=
  [n / 2 ^ 56 % 256, n / 2 ^ 48 % 256, n / 2 ^ 40 % 256, n / 2 ^ 32 % 256,
   n / 2 ^ 24 % 256, n / 2 ^ 16 % 256, n / 2 ^ 8 % 256, n % 256]

/-- SHA-256 padding: `0x80`, zeros to 56 mod 64, then the 64-bit bit length. -/
def shaPad (msg : List Nat) : List Nat :=
  msg ++ [128] ++ List.replicate ((64 - (msg.length + 9) % 64) % 64) 0
      ++ lenTo8Bytes (msg.length * 8)

/-- One lowercase hex digit. -/
def hexDigit (n : Nat) : String :=
  ["0", "1", "2", "3", "4", "5", "6", "7", "8", "9", "a", "b", "c", "d", "e", "f"].getD n "0"

/-- Four lowercase hex digits (for `\uXXXX` escapes). -/
def hex4 (n : Nat) : String :=
  hexDigit (n / 4096 % 16) ++ hexDigit (n / 256 % 16) ++ hexDigit (n / 16 % 16) ++ hexDigit (n % 16)

/-- A 32-bit word as eight lowercase hex digits. -/
def wordHex (w : Nat) : String :=
  hexDigit (w / 2 ^ 28 % 16) ++ hexDigit (w / 2 ^ 24 % 16) ++ hexDigit (w / 2 ^ 20 % 16) ++
  hexDigit (w / 2 ^ 16 % 16) ++ hexDigit (w / 2 ^ 12 % 16) ++ hexDigit (w / 2 ^ 8 % 16) ++
  hexDigit (w / 2 ^ 4 % 16) ++ hexDigit (w % 16)

/-- SHA-256 lowercase hex digest of a byte sequence. -/
def sha256Bytes (msg : List Nat) : String :=
  let s := shaCompressAll shaH0 (bytesToWords (shaPad msg))
  wordHex s.a ++ wordHex s.b ++ wordHex s.c ++ wordHex s.d ++
  wordHex s.e ++ wordHex s.f ++ wordHex s.g ++ wordHex s.h

/-- UTF-8 encoding of one character (`text.encode("utf-8")`). -/
def utf8Char (c : Char) : List Nat :=
  let n := c.toNat
  if n < 128 then [n]
  else if n < 2048 then [192 + n / 64, 128 + n % 64]
  else if n < 65536 then [224 + n / 4096, 128 + n / 64 % 64, 128 + n % 64]
  else [240 + n / 262144, 128 + n / 4096 % 64, 128 + n / 64 % 64, 128 + n % 64]

/-- UTF-8 encoding of a string. -/
def utf8Encode (s : String) : List Nat :=
  s.data.flatMap utf8Char

/-- `hashlib.sha256(s.encode("utf-8")).hexdigest()`. -/
def sha256hex (s : String) : String := sha256Bytes (utf8Encode s)

/-- FIPS 180-4 test vector: the digest of `"abc"`. -/
example : sha256hex "abc" =
    "ba7816bf8f01cfea414140de5dae2223b00361a396177a9cb410ff61f20015ad" := by decide

/-! ## JSON values and `json.dumps(obj, sort_keys=True)`

The snapshot built by `AuditSnapshotter.create_frozen_snapshot` is a plain
Python dict serialized with `json.dumps(snapshot, sort_keys=True)`.  `Json`
below is the value domain (arrays and objects as their own inductive spines so
every serializer is structurally recursive and kernel-evaluable), and
`Json.dumps` reproduces CPython's defaults: separators `", "` and `": "`,
`ensure_ascii=True` escaping, object keys sorted by code point. -/

mutual
inductive Json where
  | null
  | jbool (b : Bool)
  | jint (n : Int)
  | jfloat (q : ℚ)
  | jstr (s : String)
  | jarr (xs : JsonList)
  | jobj (fs : JsonFields)
  deriving DecidableEq
inductive JsonList where
  | nil
  | cons (x : Json) (xs : JsonList)
  deriving DecidableEq
inductive JsonFields where
  | nil
  | cons (k : String) (v : Json) (fs : JsonFields)
  deriving DecidableEq
end

/-- Code-point lexicographic order on character lists — how Python compares
`str` values, hence how `sort_keys=True` orders keys. -/
def charsLt : List Char → List Char → Bool
  | [], [] => false
  | [], _ :: _ => true
  | _ :: _, [] => false
  | c :: cs, d :: ds =>
      if c.toNat < d.toNat then true
      else if d.toNat < c.toNat then false
      else charsLt cs ds

/-- Python `str` strict order. -/
def strLt (a b : String) : Bool := charsLt a.data b.data

/-- Insert a key/value pair into a key-sorted field list. -/
def insertField (k : String) (v : Json) : JsonFields → JsonFields
  | .nil => .cons k v .nil
  | .cons k2 v2 fs =>
      if strLt k k2 then .cons k v (.cons k2 v2 fs)
      else .cons k2 v2 (insertField k v fs)

/-- Sort an object's fields by key (the effect of `sort_keys=True`; snapshot
dicts never carry duplicate keys, so stability is immaterial). -/
def sortFields : JsonFields → JsonFields
  | .nil => .nil
  | .cons k v fs => insertField k v (sortFields fs)

/-- One character of a JSON string under `ensure_ascii=True`: CPython escapes
`"` and `\`, the usual control shorthands, every other char outside
`0x20..0x7e` as `\uXXXX` (astral chars as a surrogate pair). -/
def escapeChar (c : Char) : String :=
  if c = '\"' then "\\\""
  else if c = '\\' then "\\\\"
  else if c = '\n' then "\\n"
  else if c = '\r' then "\\r"
  else if c = '\t' then "\\t"
  else if c = '\x08' then "\\b"
  else if c = '\x0c' then "\\f"
  else if c.toNat < 32 || 126 < c.toNat then
    if c.toNat < 65536 then "\\u" ++ hex4 c.toNat
    else "\\u" ++ hex4 (55296 + (c.toNat - 65536) / 1024) ++
         "\\u" ++ hex4 (56320 + (c.toNat - 65536) % 1024)
  else String.singleton c

/-- JSON string-body escaping. -/
def escapeString (s : String) : String := String.join (s.data.map escapeChar)

/-- Fractional decimal digits of `r / den` (with `r < den`), emitted until the
remainder is zero or the fuel runs out.  Every float the pipeline serializes
is a short exact decimal, for which this matches CPython's shortest `repr`. -/
def fracDigits : Nat → Nat → Nat → String
  | _, _, 0 => ""
  | r, den, fuel + 1 =>
      if r = 0 then ""
      else toString (r * 10 / den) ++ fracDigits (r * 10 % den) den fuel

/-- Python `repr` of a float, modelled on exact decimal rationals: an
integral value prints as `n.0`, otherwise integer part, `.`, then the decimal
expansion. -/
def floatRepr (q : ℚ) : String :=
  let sign := if q.num < 0 then "-" else ""
  let n := q.num.natAbs
  let d := q.den
  if n % d = 0 then sign ++ toString (n / d) ++ ".0"
  else sign ++ toString (n / d) ++ "." ++ fracDigits (n % d) d 32

mutual
/-- Recursively sort every object's keys (the effect of `sort_keys=True`). -/
def Json.sortKeys : Json → Json
  | .null => .null
  | .jbool b => .jbool b
  | .jint n => .jint n
  | .jfloat q => .jfloat q
  | .jstr s => .jstr s
  | .jarr xs => .jarr (JsonList.sortKeys xs)
  | .jobj fs => .jobj (sortFields (JsonFields.sortKeys fs))
/-- Key-sorting mapped over an array. -/
def JsonList.sortKeys : JsonList → JsonList
  | .nil => .nil
  | .cons x xs => .cons (Json.sortKeys x) (JsonList.sortKeys xs)
/-- Key-sorting mapped over field values. -/
def JsonFields.sortKeys : JsonFields → JsonFields
  | .nil => .nil
  | .cons k v fs => .cons k (Json.sortKeys v) (JsonFields.sortKeys fs)
end

mutual
/-- Serialization with CPython's default separators `", "` and `": "` (keys
in stored order; `Json.dumpsSorted` below composes in the key sorting). -/
def Json.dumps : Json → String
  | .null => "null"
  | .jbool true => "true"
  | .jbool false => "false"
  | .jint n => toString n
  | .jfloat q => floatRepr q
  | .jstr s => "\"" ++ escapeString s ++ "\""
  | .jarr xs => "[" ++ JsonList.dumps xs ++ "]"
  | .jobj fs => "\x7b" ++ JsonFields.dumps fs ++ "\x7d"
/-- Comma-joined array elements. -/
def JsonList.dumps : JsonList → String
  | .nil => ""
  | .cons x .nil => Json.dumps x
  | .cons x (.cons y ys) => Json.dumps x ++ ", " ++ JsonList.dumps (.cons y ys)
/-- Comma-joined `"key": value` pairs. -/
def JsonFields.dumps : JsonFields → String
  | .nil => ""
  | .cons k v .nil => "\"" ++ escapeString k ++ "\": " ++ Json.dumps v
  | .cons k v (.cons k2 v2 fs) =>
      "\"" ++ escapeString k ++ "\": " ++ Json.dumps v ++ ", " ++
      JsonFields.dumps (.cons k2 v2 fs)
end

/-- `json.dumps(v, sort_keys=True)`. -/
def Json.dumpsSorted (v : Json) : String := Json.dumps (Json.sortKeys v)

/-- Lift a Lean list of values into a JSON array spine. -/
def JsonList.ofList : List Json → JsonList
  | [] => .nil
  | x :: xs => .cons x (JsonList.ofList xs)

/-- An optional string as a JSON value (`None` ↦ `null`). -/
def jsonOfOptStr : Option String → Json
  | none => Json.null
  | some s => Json.jstr s

/-- Python truthiness of an optional string: `None` and `""` are falsy. -/
def optStrTruthy : Option String → Bool
  | none => false
  | some s => !(s == "")

/-- Python truthiness of a JSON value (`None`, `False`, `0`, `0.0`, `""`,
`[]` and the empty dict are falsy). -/
def Json.truthy : Json → Bool
  | .null => false
  | .jbool b => b
  | .jint n => !(n == 0)
  | .jfloat q => !(q == 0)
  | .jstr s => !(s == "")
  | .jarr .nil => false
  | .jarr (.cons _ _) => true
  | .jobj .nil => false
  | .jobj (.cons _ _ _) => true

/-- Sanity example: nesting, key sorting and separators as in CPython. -/
example :
    Json.dumpsSorted (.jobj (.cons "b" (.jarr (.cons .null .nil))
      (.cons "a" (.jint 1) .nil))) =
    "\x7b\"a\": 1, \"b\": [null]\x7d" := by decide

/-- Sanity example: float rendering matches `repr(0.5)` and `repr(0.0)`. -/
example : floatRepr (mkRat 1 2) = "0.5" ∧ floatRepr 0 = "0.0" := by decide

/-! ## Schemas (`app/schemas/agents.py`)

Statuses stay `String`, as in the source: `RequirementAssessment.status` is a
`str` field whose validator admits exactly `COMPLIANT`, `PARTIAL`,
`NON_COMPLIANT` and `UNKNOWN`; `VerifiedAssessment` carries plain untyped
`str`/`float` fields with **no** validator at all. -/

/-- `RequirementAssessment` — output of the Reasoner agent. -/
structure RequirementAssessment where
  requirement_id : String
  status : String
  confidence : ℚ
  evidence_quote : Option String
  reasoning : String
  page_numbers : List Int
  deriving DecidableEq, Repr

/-- The `validate_status` validator of `RequirementAssessment`: accepted
status strings. -/
def validStatus (s : String) : Bool :=
  s == "COMPLIANT" || s == "PARTIAL" || s == "NON_COMPLIANT" || s == "UNKNOWN"

/-- `VerifiedAssessment` — output of the Verifier agent.  Every field is a
plain typed field; the pydantic model declares no value-level validator, so
any combination of statuses and confidences parses successfully. -/
structure VerifiedAssessment where
  requirement_id : String
  original_status : String
  verified_status : String
  original_confidence : ℚ
  verified_confidence : ℚ
  verification_notes : Option String
  approved : Bool
  deriving DecidableEq, Repr

/-- `EvidenceBundle` — retrieval output for one requirement (the fields the
agents read). -/
structure EvidenceBundle where
  requirement_id : String
  law_clauses : List String
  document_chunks : List String
  deriving DecidableEq, Repr

/-- One row of `AgentOrchestrator._load_requirements()` output (the dict
fields the orchestrator reads downstream). -/
structure RequirementRow where
  requirement_id : String
  title : String
  requirement_text : String
  deriving DecidableEq, Repr

/-! ## Agents (`app/services/agents/core_agents.py`)

Each agent wraps one LLM call in `try/except`.  The call plus
`json.loads` plus pydantic construction is the oracle argument; `none` /
`.error e` is the exception path (with `str(e) = e`). -/

namespace ReasonerAgent

/-- `ReasonerAgent.assess`: returns the parsed oracle reply, or on any
exception the fail-safe UNKNOWN assessment naming the error
(`core_agents.py` lines 135–145). -/
def assess (evidence : EvidenceBundle)
    (oracle : Except String RequirementAssessment) : RequirementAssessment :=
  match oracle with
  | .ok a => a
  | .error e =>
      { requirement_id := evidence.requirement_id
        status := "UNKNOWN"
        confidence := 0
        evidence_quote := none
        reasoning := "Assessment failed due to error: " ++ e
        page_numbers := [] }

end ReasonerAgent

namespace VerifierAgent

/-- `VerifierAgent.verify`: returns `VerifiedAssessment(**data)` for the
parsed oracle reply — unchecked — or on any exception the fail-safe that
approves the original assessment unchanged (`core_agents.py` lines 158–215). -/
def verify (assessment : RequirementAssessment)
    (oracle : Option VerifiedAssessment) : VerifiedAssessment :=
  match oracle with
  | some v => v
  | none =>
      { requirement_id := assessment.requirement_id
        original_status := assessment.status
        verified_status := assessment.status
        original_confidence := assessment.confidence
        verified_confidence := assessment.confidence
        verification_notes := some "Verification skipped due to error"
        approved := true }

end VerifierAgent

/-! ## Orchestrator (`app/services/agents/orchestrator.py`) -/

namespace AgentOrchestrator

/-- `_aggregate_verdict` (lines 197–213): deterministic verdict rules over
the assessments' statuses. -/
def _aggregate_verdict (assessments : List RequirementAssessment) : String :=
  let statuses := assessments.map (fun a => a.status)
  if "NON_COMPLIANT" ∈ statuses then "RED"
  else if "PARTIAL" ∈ statuses ∨ "UNKNOWN" ∈ statuses then "YELLOW"
  else "GREEN"

/-- The catalog's identifier set (`valid_ids = {r["requirement_id"] for r in
requirements}`); a list models the Python set, and only membership is used. -/
def validIds (requirements : List RequirementRow) : List String :=
  requirements.map (fun r => r.requirement_id)

/-- The plan filter (lines 92–94): `[rid for rid in plan.requirement_ids if
rid in valid_ids]`. -/
def filterPlan (requirements : List RequirementRow) (planIds : List String) : List String :=
  planIds.filter (fun rid => rid ∈ validIds requirements)

/-- Merging a verification into the assessment of record (lines 131–135):
`if not verification.approved: assessment.status = verification.verified_status;
assessment.confidence = verification.verified_confidence`. -/
def applyVerification (assessment : RequirementAssessment)
    (verification : VerifiedAssessment) : RequirementAssessment :=
  if verification.approved then assessment
  else { assessment with
          status := verification.verified_status
          confidence := verification.verified_confidence }

/-- The fail-safe appended when the per-requirement `try` block raises
(lines 137–142). -/
def failedAssessment (req_id : String) (e : String) : RequirementAssessment :=
  { requirement_id := req_id
    status := "UNKNOWN"
    confidence := 0
    evidence_quote := none
    reasoning := "Evaluation failed: " ++ e
    page_numbers := [] }

/-- Outcome of one requirement's `retrieve → assess → verify` chain as seen
by the orchestrator's `try` block: `.error e` is an exception escaping the
chain, `.ok (assessment, verification)` is its normal result. -/
def PerRequirementOutcome : Type :=
  Except String (RequirementAssessment × VerifiedAssessment)

/-- The body of the per-requirement loop (lines 100–142): every `req_id` in
the filtered plan is evaluated; after `filterPlan` the lookup `next(...)`
always succeeds, so the `if not req_data: continue` branch is unreachable. -/
def evaluateRequirement (req_id : String) (outcome : PerRequirementOutcome) :
    RequirementAssessment :=
  match outcome with
  | .ok (assessment, verification) => applyVerification assessment verification
  | .error e => failedAssessment req_id e

/-- The full evaluation loop over the filtered plan, in plan order. -/
def evaluateAll (outcomes : String → PerRequirementOutcome) (ids : List String) :
    List RequirementAssessment :=
  ids.map (fun req_id => evaluateRequirement req_id (outcomes req_id))

/-- The evaluation stage as the caller sees it: the per-requirement
`try/except` confines every oracle exception to its own requirement, so the
loop itself returns normally for every outcome assignment. -/
def pipelineOutcome (outcomes : String → PerRequirementOutcome) (ids : List String) :
    Except String (List RequirementAssessment) :=
  .ok (evaluateAll outcomes ids)

end AgentOrchestrator

/-! ## Audit lifecycle (`app/models/audit.py`, `app/api/v1/endpoints/upload.py`) -/

/-- The `AuditStatus` enum (`models/audit.py` lines 8–13). -/
inductive AuditStatus where
  | PENDING
  | EXTRACTING
  | ANALYZING
  | COMPLETED
  | FAILED
  deriving DecidableEq, Repr

/-- The sequence of statuses stored on the audit row by `upload_policy`
(which creates the row as `PENDING`) followed by `process_policy_task`
(`upload.py` lines 23–98) once the row is found: the task sets `ANALYZING`,
runs the pipeline, and sets `COMPLETED`, with any exception escaping to the
`except` block which sets `FAILED`. -/
def process_policy_task (pipeline : Except String (List RequirementAssessment)) :
    List AuditStatus :=
  AuditStatus.PENDING :: AuditStatus.ANALYZING ::
    (match pipeline with
     | .ok _ => [AuditStatus.COMPLETED]
     | .error _ => [AuditStatus.FAILED])

/-- The audit row fields `ensure_immutability` touches (`models/audit.py`):
`report` is a nullable JSON column. -/
structure PolicyAudit where
  id : String
  filename : String
  status : AuditStatus
  report : Option Json
  deriving DecidableEq

/-! ## Snapshotter (`app/services/audit_snapshotter.py`) -/

namespace AuditSnapshotter

/-- `ENGINE_NAME`. -/
def ENGINE_NAME : String := "Company Compliance Engine"

/-- `ENGINE_VERSION`. -/
def ENGINE_VERSION : String := "2.0.0"

/-- `calculate_hash` (lines 19–24): empty (falsy) text hashes to `""`,
otherwise the SHA-256 hex digest of the UTF-8 bytes. -/
def calculate_hash (text : String) : String :=
  if text == "" then "" else sha256hex text

/-- One entry of the snapshot's `results.requirements` list (lines 39–51). -/
structure FrozenRequirement where
  requirement_id : String
  status : String
  confidence : ℚ
  reasoning : String
  evidence_quote : Option String
  evidence_hash : Option String
  page_numbers : List Int
  deriving DecidableEq

/-- Freezing one assessment: `evidence_hash = cls.calculate_hash(quote) if
quote else None` (Python truthiness: `None` and `""` both skip hashing). -/
def freezeAssessment (a : RequirementAssessment) : FrozenRequirement :=
  { requirement_id := a.requirement_id
    status := a.status
    confidence := a.confidence
    reasoning := a.reasoning
    evidence_quote := a.evidence_quote
    evidence_hash :=
      if optStrTruthy a.evidence_quote then some (calculate_hash (a.evidence_quote.getD ""))
      else none
    page_numbers := a.page_numbers }

/-- The `framework` sub-dict: `framework_metadata.get(...)` may be `None`. -/
structure FrameworkInfo where
  name : Option String
  version : Option String
  effective_date : Option String
  deriving DecidableEq

/-- The snapshot dict as built on lines 53–72, before the `fingerprint` key
is assigned.  `evaluation_date` carries `datetime.utcnow().isoformat()`,
passed explicitly to keep the embedding pure. -/
structure SnapshotBody where
  snapshot_version : String
  audit_id : String
  engine_name : String
  engine_version : String
  evaluation_date : String
  framework : FrameworkInfo
  overall_verdict : String
  requirements : List FrozenRequirement
  execution_trace : Json
  integrity_check_passed : Bool
  deriving DecidableEq

/-- A frozen requirement as the JSON value it occupies in the snapshot dict
(keys in source order; `Json.dumpsSorted` sorts them). -/
def FrozenRequirement.toJson (r : FrozenRequirement) : Json :=
  .jobj (.cons "requirement_id" (.jstr r.requirement_id)
    (.cons "status" (.jstr r.status)
      (.cons "confidence" (.jfloat r.confidence)
        (.cons "reasoning" (.jstr r.reasoning)
          (.cons "evidence_quote" (jsonOfOptStr r.evidence_quote)
            (.cons "evidence_hash" (jsonOfOptStr r.evidence_hash)
              (.cons "page_numbers"
                (.jarr (JsonList.ofList (r.page_numbers.map Json.jint))) .nil)))))))

/-- The requirement list as a JSON array. -/
def requirementsJson : List FrozenRequirement → JsonList
  | [] => .nil
  | r :: rs => .cons r.toJson (requirementsJson rs)

/-- The snapshot dict (without the later-assigned `fingerprint` key) as the
JSON value handed to `json.dumps(snapshot, sort_keys=True)`. -/
def SnapshotBody.toJson (b : SnapshotBody) : Json :=
  .jobj (.cons "snapshot_version" (.jstr b.snapshot_version)
    (.cons "audit_id" (.jstr b.audit_id)
      (.cons "engine"
        (.jobj (.cons "name" (.jstr b.engine_name)
          (.cons "version" (.jstr b.engine_version)
            (.cons "evaluation_date" (.jstr b.evaluation_date) .nil))))
        (.cons "framework"
          (.jobj (.cons "name" (jsonOfOptStr b.framework.name)
            (.cons "version" (jsonOfOptStr b.framework.version)
              (.cons "effective_date" (jsonOfOptStr b.framework.effective_date) .nil))))
          (.cons "results"
            (.jobj (.cons "overall_verdict" (.jstr b.overall_verdict)
              (.cons "requirements" (.jarr (requirementsJson b.requirements)) .nil)))
            (.cons "metadata"
              (.jobj (.cons "execution_trace" b.execution_trace
                (.cons "integrity_check_passed" (.jbool b.integrity_check_passed) .nil)))
              .nil))))))

/-- The frozen snapshot: body plus the `fingerprint` key assigned last. -/
structure Snapshot where
  body : SnapshotBody
  fingerprint : String
  deriving DecidableEq

/-- `create_frozen_snapshot` (lines 26–79): freeze each assessment, assemble
the snapshot dict, then set `fingerprint` to
`calculate_hash(json.dumps(snapshot, sort_keys=True))` — computed over the
dict before the fingerprint key exists. -/
def create_frozen_snapshot (audit_id : String) (framework_metadata : FrameworkInfo)
    (assessments : List RequirementAssessment) (overall_verdict : String)
    (execution_trace : Json) (evaluation_date : String) : Snapshot :=
  let body : SnapshotBody :=
    { snapshot_version := "1.0"
      audit_id := audit_id
      engine_name := ENGINE_NAME
      engine_version := ENGINE_VERSION
      evaluation_date := evaluation_date
      framework := framework_metadata
      overall_verdict := overall_verdict
      requirements := assessments.map freezeAssessment
      execution_trace := execution_trace
      integrity_check_passed := true }
  { body := body
    fingerprint := calculate_hash (Json.dumpsSorted body.toJson) }

/-- The loop body of `verify_integrity` (lines 88–95) for one stored
requirement: when both the quote and the stored hash are truthy, the
recomputed hash must equal the stored one; otherwise (`if quote and
stored_hash` fails) the entry is skipped. -/
def requirementCheck (req : FrozenRequirement) : Bool :=
  match req.evidence_quote, req.evidence_hash with
  | some quote, some stored_hash =>
      if quote == "" || stored_hash == "" then true
      else calculate_hash quote == stored_hash
  | _, _ => true

/-- `verify_integrity` (lines 81–98): true iff no stored requirement fails
its hash re-check.  (The leading `if not snapshot or "results" not in
snapshot` guard concerns malformed dicts; a `Snapshot` value always has its
`results` key.) -/
def verify_integrity (snapshot : Snapshot) : Bool :=
  snapshot.body.requirements.all requirementCheck

/-- The fingerprint as a function of the snapshot body alone — the hash of
the key-sorted serialization of the body, which omits the `fingerprint` key. -/
def bodyFingerprint (b : SnapshotBody) : String :=
  calculate_hash (Json.dumpsSorted b.toJson)

/-- `ensure_immutability` (lines 100–104): `if audit.report: raise
ValueError(...)` — the guard is Python truthiness of the JSON column. -/
def ensure_immutability (audit : PolicyAudit) : Except String Unit :=
  if (match audit.report with
      | none => false
      | some j => j.truthy) then
    .error ("Audit " ++ audit.id ++ " is frozen and cannot be modified.")
  else .ok ()

/-- Overwrite the `evidence_quote` of the `i`-th stored requirement — the
tampering operation the integrity claims quantify over. -/
def setQuoteAt : List FrozenRequirement → Nat → Option String → List FrozenRequirement
  | [], _, _ => []
  | r :: rs, 0, q => { r with evidence_quote := q } :: rs
  | r :: rs, n + 1, q => r :: setQuoteAt rs n q

/-- The snapshot with the `i`-th requirement's `evidence_quote` replaced. -/
def setQuote (s : Snapshot) (i : Nat) (q : Option String) : Snapshot :=
  { s with body := { s.body with requirements := setQuoteAt s.body.requirements i q } }

end AuditSnapshotter

/-! ## Spec-side definition for the aggregation refinement claim -/

/-- Written from the spec's words (§4.5/§8), not from the code: the overall
verdict as a function of the *multiset* of per-requirement statuses — any
`NON_COMPLIANT` gives RED; otherwise any `PARTIAL` or `UNKNOWN` gives YELLOW;
otherwise GREEN. -/
def aggregateSpec (statuses : Multiset String) : String :=
  if "NON_COMPLIANT" ∈ statuses then "RED"
  else if "PARTIAL" ∈ statuses ∨ "UNKNOWN" ∈ statuses then "YELLOW"
  else "GREEN"

/-! ## Concrete inputs used by witnesses and counterexamples -/

/-- An assessor output the verifier is given: UNKNOWN at confidence 0.5. -/
def c2input : RequirementAssessment :=
  ⟨"REQ-007", "UNKNOWN", mkRat 1 2, none, "insufficient evidence", []⟩

/-- A parsed verifier-oracle reply that upgrades: UNKNOWN → COMPLIANT and
confidence 0.5 → 0.9.  `VerifiedAssessment` has no validator, so this reply
parses successfully. -/
def c2oracleReply : VerifiedAssessment :=
  ⟨"REQ-007", "UNKNOWN", "COMPLIANT", mkRat 1 2, mkRat 9 10, none, true⟩

/-- A two-requirement catalog `{REQ-A, REQ-B}`. -/
def c3reqs : List RequirementRow :=
  [⟨"REQ-A", "Consent", "must obtain consent"⟩,
   ⟨"REQ-B", "Erasure", "must provide erasure"⟩]

/-- An assessment about to be overruled by verification. -/
def c4a : RequirementAssessment :=
  ⟨"REQ-003", "COMPLIANT", mkRat 9 10, some "quote", "stated explicitly", [2]⟩

/-- A rejecting verification (`approved = false`) that downgrades. -/
def c4v : VerifiedAssessment :=
  ⟨"REQ-003", "COMPLIANT", "PARTIAL", mkRat 9 10, mkRat 2 5, some "vague", false⟩

/-- An *approving* verification whose verified values nevertheless differ
from the original assessment's. -/
def c4approvingChanged : VerifiedAssessment :=
  ⟨"REQ-003", "COMPLIANT", "PARTIAL", mkRat 9 10, mkRat 1 4, some "softer", true⟩

/-- A normal per-requirement result for the failure-isolation scenario. -/
def c5assessment : RequirementAssessment :=
  ⟨"REQ-001", "COMPLIANT", mkRat 4 5, some "We obtain consent.", "explicit", [1]⟩

/-- An approving verification for `c5assessment`. -/
def c5verification : VerifiedAssessment :=
  ⟨"REQ-001", "COMPLIANT", "COMPLIANT", mkRat 4 5, mkRat 4 5, none, true⟩

/-- Outcome assignment where exactly the oracle call for `REQ-002` raises. -/
def c5outcomes : String → AgentOrchestrator.PerRequirementOutcome := fun rid =>
  if rid = "REQ-002" then .error "boom" else .ok (c5assessment, c5verification)

/-- Framework metadata used by the snapshot examples. -/
def cFw : AuditSnapshotter.FrameworkInfo :=
  ⟨some "DPDP Act 2023", some "1.0", some "2023-08-11"⟩

/-- An assessment carrying a non-empty evidence quote. -/
def c6asm : RequirementAssessment :=
  ⟨"REQ-001", "COMPLIANT", mkRat 4 5, some "We obtain consent.", "explicit", [1]⟩

/-- A frozen snapshot holding one hashed evidence quote. -/
def c6snap : AuditSnapshotter.Snapshot :=
  AuditSnapshotter.create_frozen_snapshot "audit-6" cFw [c6asm] "GREEN"
    (.jobj .nil) "2024-01-01T00:00:00"

/-- The single frozen requirement of `c6snap`. -/
def c6frozen : AuditSnapshotter.FrozenRequirement :=
  AuditSnapshotter.freezeAssessment c6asm

/-- A quote-free assessment for the fingerprint claim. -/
def c7asmA : RequirementAssessment :=
  ⟨"REQ-001", "COMPLIANT", mkRat 1 2, none, "ok", []⟩

/-- `c7asmA` with exactly one assessment field changed (the status). -/
def c7asmB : RequirementAssessment :=
  ⟨"REQ-001", "PARTIAL", mkRat 1 2, none, "ok", []⟩

/-- Snapshot of `c7asmA`. -/
def c7snapA : AuditSnapshotter.Snapshot :=
  AuditSnapshotter.create_frozen_snapshot "audit-1" cFw [c7asmA] "GREEN"
    (.jobj .nil) "2024-01-01T00:00:00"

/-- Snapshot of `c7asmB`, all other inputs identical to `c7snapA`. -/
def c7snapB : AuditSnapshotter.Snapshot :=
  AuditSnapshotter.create_frozen_snapshot "audit-1" cFw [c7asmB] "GREEN"
    (.jobj .nil) "2024-01-01T00:00:00"

/-- An audit whose `report` column holds the *empty* JSON object. -/
def c8emptyReportAudit : PolicyAudit :=
  ⟨"audit-8", "policy.pdf", AuditStatus.COMPLETED, some (.jobj .nil)⟩

/-- An audit holding a non-empty report. -/
def c8frozenAudit : PolicyAudit :=
  ⟨"audit-9", "policy.pdf", AuditStatus.COMPLETED,
   some (.jobj (.cons "overall_verdict" (.jstr "GREEN") .nil))⟩

/-- Outcome assignment for the empty-plan scenario (never consulted, since
the filtered plan is empty). -/
def c10outcomes : String → AgentOrchestrator.PerRequirementOutcome :=
  fun _ => .error "unreachable"

/-! ## Theorems -/

/-- **C1**: `_aggregate_verdict` is a pure function of the multiset of the
assessments' statuses, and equals the spec's rules on that multiset: RED if
any `NON_COMPLIANT` is present, otherwise YELLOW if any `PARTIAL` or
`UNKNOWN` is present, otherwise GREEN. -/
theorem C1_aggregate_verdict_of_status_multiset
    (assessments : List RequirementAssessment) :
    AgentOrchestrator._aggregate_verdict assessments =
      aggregateSpec (↑(assessments.map (fun a => a.status))) := by
  simp [AgentOrchestrator._aggregate_verdict, aggregateSpec]

/-- **C2** (code bug): the success branch of `VerifierAgent.verify` returns
the parsed oracle reply unchecked — neither the class docstring's "can only
downgrade, never upgrade" nor the spec's invariant is enforced.  At the
concrete failing input, an UNKNOWN assessment at confidence 0.5 comes back
COMPLIANT at confidence 0.9 > 0.5. -/
theorem C2_verifier_upgrade_unchecked :
    VerifierAgent.verify c2input (some c2oracleReply) = c2oracleReply ∧
    c2input.status = "UNKNOWN" ∧
    (VerifierAgent.verify c2input (some c2oracleReply)).verified_status = "COMPLIANT" ∧
    ¬ ((VerifierAgent.verify c2input (some c2oracleReply)).verified_confidence ≤
        (VerifierAgent.verify c2input (some c2oracleReply)).original_confidence) :=
  ⟨rfl, rfl, rfl, by decide⟩

/-- **C3**: the orchestrator's plan filter keeps exactly the plan identifiers
present in the catalog, in plan order (a sublist of the plan), and running
the filter a second time changes nothing. -/
theorem C3_plan_filter_correct
    (requirements : List RequirementRow) (planIds : List String) :
    (∀ rid ∈ AgentOrchestrator.filterPlan requirements planIds,
        rid ∈ AgentOrchestrator.validIds requirements) ∧
    (∀ rid ∈ planIds, rid ∈ AgentOrchestrator.validIds requirements →
        rid ∈ AgentOrchestrator.filterPlan requirements planIds) ∧
    (AgentOrchestrator.filterPlan requirements planIds).Sublist planIds ∧
    AgentOrchestrator.filterPlan requirements
        (AgentOrchestrator.filterPlan requirements planIds) =
      AgentOrchestrator.filterPlan requirements planIds := by
  refine ⟨?_, ?_, ?_, ?_⟩
  · intro rid h
    exact of_decide_eq_true (List.mem_filter.mp h).2
  · intro rid h hv
    exact List.mem_filter.mpr ⟨h, decide_eq_true hv⟩
  · exact List.filter_sublist _
  · simp only [AgentOrchestrator.filterPlan]
    rw [List.filter_filter]
    apply List.filter_congr
    intro x _
    exact Bool.and_self _

/-- **C3** witness: catalog `{REQ-A, REQ-B}`, plan `[REQ-A, FAKE]`. -/
theorem C3_plan_filter_correct_witness :
    "REQ-A" ∈ AgentOrchestrator.filterPlan c3reqs ["REQ-A", "FAKE"] ∧
    AgentOrchestrator.filterPlan c3reqs
        (AgentOrchestrator.filterPlan c3reqs ["REQ-A", "FAKE"]) =
      AgentOrchestrator.filterPlan c3reqs ["REQ-A", "FAKE"] :=
  ⟨(C3_plan_filter_correct c3reqs ["REQ-A", "FAKE"]).2.1 "REQ-A" (by decide) (by decide),
   (C3_plan_filter_correct c3reqs ["REQ-A", "FAKE"]).2.2.2⟩

/-- **C4** counterexample: an *approving* verification whose verified values
differ from the original's — the code keeps the original assessment, while
the claim requires the verified values to be recorded whenever they differ. -/
theorem C4_approved_with_changed_values_counterexample :
    c4approvingChanged.approved = true ∧
    c4approvingChanged.verified_status ≠ c4a.status ∧
    c4approvingChanged.verified_confidence ≠ c4a.confidence ∧
    (AgentOrchestrator.applyVerification c4a c4approvingChanged).status ≠
      c4approvingChanged.verified_status ∧
    (AgentOrchestrator.applyVerification c4a c4approvingChanged).confidence ≠
      c4approvingChanged.verified_confidence := by
  refine ⟨rfl, by decide, by decide, by decide, by decide⟩

/-- **C4** as amended: the orchestrator records the verified status and
confidence exactly when `approved` is false; when `approved` is true the
original assessment is kept unchanged even if the verified values differ. -/
theorem C4_verified_values_applied_iff_not_approved
    (a : RequirementAssessment) (v : VerifiedAssessment) :
    (v.approved = false →
      AgentOrchestrator.applyVerification a v =
        { a with status := v.verified_status, confidence := v.verified_confidence }) ∧
    (v.approved = true → AgentOrchestrator.applyVerification a v = a) := by
  constructor <;> intro h <;> simp [AgentOrchestrator.applyVerification, h]

/-- **C4** witness: a rejecting verification gets its values recorded. -/
theorem C4_verified_values_applied_iff_not_approved_witness :
    AgentOrchestrator.applyVerification c4a c4v =
      { c4a with status := c4v.verified_status, confidence := c4v.verified_confidence } :=
  (C4_verified_values_applied_iff_not_approved c4a c4v).1 rfl

/-- **C5**: if the oracle chain for requirement `r` raises `e`, the
assessment recorded at `r`'s position is the fail-safe — status UNKNOWN,
confidence 0, reasoning naming the error; every other position is the same
as under any outcome assignment agreeing outside `r`; and the run's status
trace still ends in COMPLETED. -/
theorem C5_per_requirement_failure_isolation
    (ids : List String) (outcomes outcomes' : String → AgentOrchestrator.PerRequirementOutcome)
    (r e : String) (hfail : outcomes r = .error e)
    (hagree : ∀ x, x ≠ r → outcomes' x = outcomes x) :
    (∀ i, ids.get? i = some r →
        (AgentOrchestrator.evaluateAll outcomes ids).get? i =
          some (AgentOrchestrator.failedAssessment r e)) ∧
    (AgentOrchestrator.failedAssessment r e).status = "UNKNOWN" ∧
    (AgentOrchestrator.failedAssessment r e).confidence = 0 ∧
    (AgentOrchestrator.failedAssessment r e).reasoning = "Evaluation failed: " ++ e ∧
    (∀ i x, ids.get? i = some x → x ≠ r →
        (AgentOrchestrator.evaluateAll outcomes ids).get? i =
          (AgentOrchestrator.evaluateAll outcomes' ids).get? i) ∧
    process_policy_task (AgentOrchestrator.pipelineOutcome outcomes ids) =
      [AuditStatus.PENDING, AuditStatus.ANALYZING, AuditStatus.COMPLETED] := by
  refine ⟨?_, rfl, rfl, rfl, ?_, rfl⟩
  · intro i hi
    simp only [AgentOrchestrator.evaluateAll, List.get?_map, hi, Option.map_some']
    simp [AgentOrchestrator.evaluateRequirement, hfail]
  · intro i x hi hx
    simp only [AgentOrchestrator.evaluateAll, List.get?_map, hi, Option.map_some']
    rw [hagree x hx]

/-- **C5** witness: plan `[REQ-001, REQ-002]` where the `REQ-002` chain
raises `boom`. -/
theorem C5_per_requirement_failure_isolation_witness :
    (AgentOrchestrator.evaluateAll c5outcomes ["REQ-001", "REQ-002"]).get? 1 =
      some (AgentOrchestrator.failedAssessment "REQ-002" "boom") ∧
    process_policy_task (AgentOrchestrator.pipelineOutcome c5outcomes ["REQ-001", "REQ-002"]) =
      [AuditStatus.PENDING, AuditStatus.ANALYZING, AuditStatus.COMPLETED] :=
  have h := C5_per_requirement_failure_isolation ["REQ-001", "REQ-002"]
    c5outcomes c5outcomes "REQ-002" "boom" rfl (fun _ _ => rfl)
  ⟨h.1 1 rfl, h.2.2.2.2.2⟩

/-- Freezing an assessment always passes the integrity re-check: the stored
hash, when truthy, is by construction the hash of the stored quote. -/
theorem requirementCheck_freeze (a : RequirementAssessment) :
    AuditSnapshotter.requirementCheck (AuditSnapshotter.freezeAssessment a) = true := by
  cases hq : a.evidence_quote with
  | none =>
      simp [AuditSnapshotter.freezeAssessment, AuditSnapshotter.requirementCheck, hq,
        optStrTruthy]
  | some s =>
      by_cases hs : s = ""
      · subst hs
        simp [AuditSnapshotter.freezeAssessment, AuditSnapshotter.requirementCheck, hq,
          optStrTruthy]
      · have hbeq : (s == "") = false := beq_eq_false_iff_ne.mpr hs
        simp only [AuditSnapshotter.freezeAssessment, AuditSnapshotter.requirementCheck, hq,
          optStrTruthy, Option.getD_some, hbeq, Bool.not_false, if_true]
        split <;> simp

/-- The element at the overwritten index of `setQuoteAt`. -/
theorem setQuoteAt_get? (l : List AuditSnapshotter.FrozenRequirement) (i : Nat)
    (q : Option String) :
    (AuditSnapshotter.setQuoteAt l i q).get? i =
      (l.get? i).map (fun r => { r with evidence_quote := q }) := by
  induction l generalizing i with
  | nil => simp [AuditSnapshotter.setQuoteAt]
  | cons r rs ih =>
      cases i with
      | zero => rfl
      | succ n => simpa [AuditSnapshotter.setQuoteAt] using ih n

/-- **C6** as amended: `verify_integrity` is true on every unmodified
snapshot produced by `create_frozen_snapshot`; and editing a stored
requirement's evidence quote to a *non-empty* value whose hash differs from
the stored (non-empty) hash makes it false.  (A mutation that empties the
quote is skipped by the truthiness guard — see the counterexample.) -/
theorem C6_integrity_detects_hash_mismatch :
    (∀ (audit_id : String) (fw : AuditSnapshotter.FrameworkInfo)
        (assessments : List RequirementAssessment) (verdict : String)
        (trace : Json) (date : String),
      AuditSnapshotter.verify_integrity
        (AuditSnapshotter.create_frozen_snapshot audit_id fw assessments verdict trace date) =
        true) ∧
    (∀ (s : AuditSnapshotter.Snapshot) (i : Nat)
        (r : AuditSnapshotter.FrozenRequirement) (q h : String),
      s.body.requirements.get? i = some r →
      r.evidence_hash = some h →
      q ≠ "" → h ≠ "" →
      AuditSnapshotter.calculate_hash q ≠ h →
      AuditSnapshotter.verify_integrity (AuditSnapshotter.setQuote s i (some q)) = false) := by
  constructor
  · intro audit_id fw assessments verdict trace date
    rw [AuditSnapshotter.verify_integrity]
    rw [List.all_eq_true]
    intro x hx
    rcases List.mem_map.mp hx with ⟨a, _, rfl⟩
    exact requirementCheck_freeze a
  · intro s i r q h hget hhash hq hh hne
    have hmod : (AuditSnapshotter.setQuoteAt s.body.requirements i (some q)).get? i =
        some { r with evidence_quote := some q } := by
      rw [setQuoteAt_get?, hget, Option.map_some']
    have hmem : ({ r with evidence_quote := some q } :
        AuditSnapshotter.FrozenRequirement) ∈
        AuditSnapshotter.setQuoteAt s.body.requirements i (some q) :=
      List.get?_mem hmod
    have hcheck : AuditSnapshotter.requirementCheck
        { r with evidence_quote := some q } = false := by
      simp only [AuditSnapshotter.requirementCheck, hhash]
      simp [hq, hh, hne]
    apply Bool.eq_false_iff.mpr
    intro htrue
    have := List.all_eq_true.mp htrue _ hmem
    rw [hcheck] at this
    exact Bool.false_ne_true this

/-- **C6** witness: the snapshot of one quoted assessment verifies, and
tampering the quote to `"tampered"` is detected. -/
theorem C6_integrity_detects_hash_mismatch_witness :
    AuditSnapshotter.verify_integrity c6snap = true ∧
    AuditSnapshotter.verify_integrity
      (AuditSnapshotter.setQuote c6snap 0 (some "tampered")) = false :=
  have h := C6_integrity_detects_hash_mismatch
  ⟨h.1 "audit-6" cFw [c6asm] "GREEN" (.jobj .nil) "2024-01-01T00:00:00",
   h.2 c6snap 0 c6frozen "tampered"
     "2776bbe4c9fb79787e13e317a42d5835faaa4aad3c0fe44333f362d971420b40"
     rfl (by decide) (by decide) (by decide) (by decide)⟩

/-- **C6** counterexample: mutating the stored evidence quote to the empty
string is a quote mutation that `verify_integrity` does *not* detect — the
`if quote and stored_hash` guard skips falsy quotes, so it returns true. -/
theorem C6_quote_emptied_undetected_counterexample :
    (c6snap.body.requirements.get? 0).map (fun r => r.evidence_quote) =
      some (some "We obtain consent.") ∧
    ((AuditSnapshotter.setQuote c6snap 0 (some "")).body.requirements.get? 0).map
        (fun r => r.evidence_quote) = some (some "") ∧
    ("" : String) ≠ "We obtain consent." ∧
    AuditSnapshotter.verify_integrity (AuditSnapshotter.setQuote c6snap 0 (some "")) = true :=
  ⟨rfl, rfl, by decide, rfl⟩

/-- **C7**: the fingerprint is the SHA-256 of the key-sorted canonical JSON
serialization of the snapshot body (which excludes the fingerprint field,
assigned only afterwards); it is a function of the body alone, hence
deterministic for identical frozen content; and on a concrete pair of
snapshots differing in exactly one assessment field (the status) the two
fingerprints — cross-checked against CPython's `json.dumps`/`hashlib`
values — differ. -/
theorem C7_fingerprint_canonical :
    (∀ (audit_id : String) (fw : AuditSnapshotter.FrameworkInfo)
        (assessments : List RequirementAssessment) (verdict : String)
        (trace : Json) (date : String),
      (AuditSnapshotter.create_frozen_snapshot audit_id fw assessments verdict
          trace date).fingerprint =
        AuditSnapshotter.calculate_hash (Json.dumpsSorted
          (AuditSnapshotter.SnapshotBody.toJson
            (AuditSnapshotter.create_frozen_snapshot audit_id fw assessments verdict
              trace date).body))) ∧
    (∀ (a1 : String) (f1 : AuditSnapshotter.FrameworkInfo)
        (s1 : List RequirementAssessment) (v1 : String) (t1 : Json) (d1 : String)
        (a2 : String) (f2 : AuditSnapshotter.FrameworkInfo)
        (s2 : List RequirementAssessment) (v2 : String) (t2 : Json) (d2 : String),
      (AuditSnapshotter.create_frozen_snapshot a1 f1 s1 v1 t1 d1).body =
        (AuditSnapshotter.create_frozen_snapshot a2 f2 s2 v2 t2 d2).body →
      (AuditSnapshotter.create_frozen_snapshot a1 f1 s1 v1 t1 d1).fingerprint =
        (AuditSnapshotter.create_frozen_snapshot a2 f2 s2 v2 t2 d2).fingerprint) ∧
    c7asmB = { c7asmA with status := "PARTIAL" } ∧
    c7snapA.fingerprint =
      "1f9ddb7007f855d92e3ef8e889755d844c36f30080c5391d2762d631c67b6e5e" ∧
    c7snapB.fingerprint =
      "f7209b3d8fd9d4586b08e9777cc53fbcc225189a065ff0f3c3dbcbe076687439" ∧
    c7snapA.fingerprint ≠ c7snapB.fingerprint := by
  refine ⟨fun _ _ _ _ _ _ => rfl, ?_, rfl, by decide, by decide, by decide⟩
  intro a1 f1 s1 v1 t1 d1 a2 f2 s2 v2 t2 d2 hb
  exact congrArg AuditSnapshotter.bodyFingerprint hb

/-- **C7** witness: the determinism conjunct applied at identical inputs. -/
theorem C7_fingerprint_canonical_witness :
    c7snapA.fingerprint = c7snapA.fingerprint :=
  C7_fingerprint_canonical.2.1 "audit-1" cFw [c7asmA] "GREEN" (.jobj .nil)
    "2024-01-01T00:00:00" "audit-1" cFw [c7asmA] "GREEN" (.jobj .nil)
    "2024-01-01T00:00:00" rfl

/-- **C8** as amended: `ensure_immutability` raises exactly for a *truthy*
(non-empty) report — it returns normally both when the report is absent and
when it is a falsy value such as the empty JSON object. -/
theorem C8_ensure_immutability_truthiness (audit : PolicyAudit) :
    (audit.report = none → AuditSnapshotter.ensure_immutability audit = .ok ()) ∧
    (∀ j, audit.report = some j → j.truthy = true →
      AuditSnapshotter.ensure_immutability audit =
        .error ("Audit " ++ audit.id ++ " is frozen and cannot be modified.")) ∧
    (∀ j, audit.report = some j → j.truthy = false →
      AuditSnapshotter.ensure_immutability audit = .ok ()) := by
  refine ⟨?_, ?_, ?_⟩
  · intro h
    simp [AuditSnapshotter.ensure_immutability, h]
  · intro j hj ht
    simp [AuditSnapshotter.ensure_immutability, hj, ht]
  · intro j hj ht
    simp [AuditSnapshotter.ensure_immutability, hj, ht]

/-- **C8** witness: an audit holding a non-empty report is rejected. -/
theorem C8_ensure_immutability_truthiness_witness :
    AuditSnapshotter.ensure_immutability c8frozenAudit =
      .error ("Audit " ++ c8frozenAudit.id ++ " is frozen and cannot be modified.") :=
  (C8_ensure_immutability_truthiness c8frozenAudit).2.1 _ rfl rfl

/-- **C8** counterexample: an audit whose report column holds the *empty*
JSON object does hold a report, yet `if audit.report` is falsy and
`ensure_immutability` returns normally instead of raising. -/
theorem C8_empty_report_counterexample :
    c8emptyReportAudit.report ≠ none ∧
    AuditSnapshotter.ensure_immutability c8emptyReportAudit = .ok () :=
  ⟨by decide, rfl⟩

/-- **C9** as amended: once the audit row is found, the status trace is
`PENDING, ANALYZING, COMPLETED` on success and `PENDING, ANALYZING, FAILED`
on an unhandled pipeline failure — the declared `EXTRACTING` state is never
entered. -/
theorem C9_lifecycle_skips_extracting
    (pipeline : Except String (List RequirementAssessment)) :
    AuditStatus.EXTRACTING ∉ process_policy_task pipeline ∧
    (process_policy_task pipeline).head? = some AuditStatus.PENDING ∧
    (∀ res, pipeline = .ok res → process_policy_task pipeline =
      [AuditStatus.PENDING, AuditStatus.ANALYZING, AuditStatus.COMPLETED]) ∧
    (∀ e, pipeline = .error e → process_policy_task pipeline =
      [AuditStatus.PENDING, AuditStatus.ANALYZING, AuditStatus.FAILED]) := by
  cases pipeline with
  | ok res =>
      refine ⟨?_, rfl, fun _ _ => rfl, fun e h => nomatch h⟩
      show AuditStatus.EXTRACTING ∉
        [AuditStatus.PENDING, AuditStatus.ANALYZING, AuditStatus.COMPLETED]
      decide
  | error e =>
      refine ⟨?_, rfl, ?_, fun _ _ => rfl⟩
      · show AuditStatus.EXTRACTING ∉
          [AuditStatus.PENDING, AuditStatus.ANALYZING, AuditStatus.FAILED]
        decide
      · intro r h
        exact nomatch h

/-- **C9** witness: a failing pipeline ends in FAILED without EXTRACTING. -/
theorem C9_lifecycle_skips_extracting_witness :
    process_policy_task (.error "parse error") =
      [AuditStatus.PENDING, AuditStatus.ANALYZING, AuditStatus.FAILED] :=
  (C9_lifecycle_skips_extracting (.error "parse error")).2.2.2 "parse error" rfl

/-- **C9** counterexample: a successful run reaches COMPLETED with the trace
`PENDING, ANALYZING, COMPLETED` — it never passes through EXTRACTING, contrary
to the claimed `PENDING → EXTRACTING → ANALYZING` order. -/
theorem C9_extracting_never_entered_counterexample :
    process_policy_task (.ok []) =
      [AuditStatus.PENDING, AuditStatus.ANALYZING, AuditStatus.COMPLETED] ∧
    AuditStatus.EXTRACTING ∉ process_policy_task (.ok []) := by decide

/-- **C10**: aggregating zero assessments yields GREEN, and whenever catalog
filtering removes every planner-selected identifier the completed evaluation
reports overall verdict GREEN. -/
theorem C10_empty_evaluation_green
    (requirements : List RequirementRow) (planIds : List String)
    (outcomes : String → AgentOrchestrator.PerRequirementOutcome)
    (h : ∀ rid ∈ planIds, rid ∉ AgentOrchestrator.validIds requirements) :
    AgentOrchestrator._aggregate_verdict [] = "GREEN" ∧
    AgentOrchestrator.filterPlan requirements planIds = [] ∧
    AgentOrchestrator._aggregate_verdict
        (AgentOrchestrator.evaluateAll outcomes
          (AgentOrchestrator.filterPlan requirements planIds)) = "GREEN" := by
  have hfil : AgentOrchestrator.filterPlan requirements planIds = [] := by
    rw [AgentOrchestrator.filterPlan, List.filter_eq_nil]
    intro a ha
    simpa using h a ha
  refine ⟨rfl, hfil, ?_⟩
  rw [hfil]
  rfl

/-- **C10** witness: catalog `{REQ-A, REQ-B}`, planner returns `[FAKE-9]`. -/
theorem C10_empty_evaluation_green_witness :
    AgentOrchestrator.filterPlan c3reqs ["FAKE-9"] = [] ∧
    AgentOrchestrator._aggregate_verdict
        (AgentOrchestrator.evaluateAll c10outcomes
          (AgentOrchestrator.filterPlan c3reqs ["FAKE-9"])) = "GREEN" :=
  have h := C10_empty_evaluation_green c3reqs ["FAKE-9"] c10outcomes (by decide)
  ⟨h.2.1, h.2.2⟩

end DPDPAudit
